import Mathlib

/-!
Verification of the ChatTutor orchestrator core (app/core of the repository).

The Python source is shallowly embedded: pure functions become Lean
functions, the LLM / search-network capabilities become explicit function
parameters, Python ints become Int, Python lists become List, and pydantic
validation becomes an Except-returning constructor.  Dict-based session
snapshots become structures whose Option fields model absent or None keys.
-/

namespace ChatTutor

/-- Message role, mirroring the langchain message classes used by the code:
HumanMessage, AIMessage, SystemMessage, ToolMessage. -/
inductive Role where
  | human
  | ai
  | system
  | tool
deriving DecidableEq, Repr

/-- A tool call request attached to an AI message: langchain represents it as
a dict with keys name, args and id (agent_builder.py lines 104-119).  The
args dict is modelled by the query string it carries. -/
structure ToolCall where
  name : String
  args : String
  id : String
deriving DecidableEq, Repr

/-- A langchain BaseMessage as used by the code: a role, a content string,
and - for AI messages produced by the tool-capable model - a list of tool
calls; tool messages additionally carry tool_call_id and name. -/
structure Msg where
  role : Role
  content : String
  tool_calls : List ToolCall := []
  tool_call_id : Option String := none
  name : Option String := none
deriving DecidableEq, Repr

/-- models.py ExecutionPlan: the structured plan produced by the Analyzer.
All six pydantic fields are declared with Field(description=...) and no
default, so every field is required. -/
structure ExecutionPlan where
  needs_tutor_answer : Bool
  needs_judge : Bool
  needs_inquiry : Bool
  request_summary : Bool
  is_concluding : Bool
  thought_process : String
deriving DecidableEq, Repr

/-- Constructing the pydantic ExecutionPlan model.  Every field of the model
is required (models.py lines 7-16 declare no defaults), so passing a field
as none (that is, omitting the keyword argument in Python) makes the
constructor raise a ValidationError, modelled as Except.error. -/
def mkExecutionPlan (needs_tutor_answer needs_judge needs_inquiry
    request_summary is_concluding : Option Bool)
    (thought_process : Option String) : Except String ExecutionPlan :=
  match needs_tutor_answer, needs_judge, needs_inquiry,
      request_summary, is_concluding, thought_process with
  | some a, some b, some c, some d, some e, some f =>
      Except.ok ⟨a, b, c, d, e, f⟩
  | _, _, _, _, _, _ =>
      Except.error "ValidationError: missing required fields"

/-- The except-branch of analyzer_node (agent_builder.py lines 65-73): when
the structured decode raises, the code constructs
ExecutionPlan(needs_tutor_answer=True, needs_judge=False,
needs_inquiry=False, thought_process=...), passing neither request_summary
nor is_concluding. -/
def analyzer_fallback_plan : Except String ExecutionPlan :=
  mkExecutionPlan (some true) (some false) (some false) none none
    (some "Error in planning, defaulting to simple answer.")

/-- models.py AgentState: the LangGraph state dict.  Optional fields model
keys that may be absent or hold None. -/
structure AgentState where
  messages : List Msg
  current_topic : Option String
  session_id : String
  conversation_summary : Option String
  summarized_msg_count : Int
  plan : Option ExecutionPlan
  should_exit : Bool
  tutor_output : Option String
  judge_output : Option String
  inquiry_output : Option String
  summary_output : Option String
  last_intent : Option String
deriving DecidableEq, Repr

/-- The partial state update returned by analyzer_node on success as well as
on (intended) fallback: the plan plus the four scratch outputs reset to
None (agent_builder.py lines 76-82). -/
structure AnalyzerUpdate where
  plan : ExecutionPlan
  tutor_output : Option String
  judge_output : Option String
  inquiry_output : Option String
  summary_output : Option String
deriving DecidableEq, Repr

/-- The decode-failure path of analyzer_node as written: build the fallback
plan, then return the update dict.  Because the fallback construction
itself raises a ValidationError, the whole node raises. -/
def analyzer_node_on_decode_failure : Except String AnalyzerUpdate :=
  match analyzer_fallback_plan with
  | Except.error e => Except.error e
  | Except.ok p => Except.ok ⟨p, none, none, none, none⟩

-- --- Router (agent_builder.py lines 274-309) ---

/-- The node names a conditional edge can select. -/
inductive RouteTarget where
  | tutor
  | judge
  | inquiry
  | summary
  | aggregator
deriving DecidableEq, Repr

/-- route_from_analyzer (agent_builder.py lines 274-290). -/
def route_from_analyzer (plan : Option ExecutionPlan) : RouteTarget :=
  match plan with
  | none => RouteTarget.aggregator
  | some p =>
    if p.request_summary || p.is_concluding then RouteTarget.summary
    else if p.needs_tutor_answer then RouteTarget.tutor
    else if p.needs_judge then RouteTarget.judge
    else if p.needs_inquiry then RouteTarget.inquiry
    else RouteTarget.aggregator

/-- route_from_tutor (agent_builder.py lines 292-299): the code reads
state.get("plan") and immediately dereferences plan.needs_judge with no
None check, so a missing plan raises an AttributeError, modelled as
Except.error. -/
def route_from_tutor (plan : Option ExecutionPlan) :
    Except String RouteTarget :=
  match plan with
  | none =>
      Except.error "AttributeError: NoneType object has no attribute needs_judge"
  | some p =>
      Except.ok (if p.needs_judge then RouteTarget.judge
        else if p.needs_inquiry then RouteTarget.inquiry
        else RouteTarget.aggregator)

/-- route_from_judge (agent_builder.py lines 301-306): same missing None
check as route_from_tutor. -/
def route_from_judge (plan : Option ExecutionPlan) :
    Except String RouteTarget :=
  match plan with
  | none =>
      Except.error "AttributeError: NoneType object has no attribute needs_inquiry"
  | some p =>
      Except.ok (if p.needs_inquiry then RouteTarget.inquiry
        else RouteTarget.aggregator)

/-- route_from_summary (agent_builder.py lines 308-309). -/
def route_from_summary (_plan : Option ExecutionPlan) : RouteTarget :=
  RouteTarget.aggregator

/-- The routing precedence from the Planning state exactly as the spec
states it (spec 4.2 rule 1): Summarizing if request_summary or
is_concluding, overriding all other flags; else Tutoring if
needs_tutor_answer; else Judging if needs_judge; else Inquiring if
needs_inquiry; else Aggregating.  Written from the words of the spec, to
be compared with route_from_analyzer, which is written from the code. -/
def route_from_planning_spec (p : ExecutionPlan) : RouteTarget :=
  if p.request_summary || p.is_concluding then RouteTarget.summary
  else if p.needs_tutor_answer then RouteTarget.tutor
  else if p.needs_judge then RouteTarget.judge
  else if p.needs_inquiry then RouteTarget.inquiry
  else RouteTarget.aggregator

-- --- context.py: configuration constants (lines 7-9) ---

def COMPRESSION_THRESHOLD : Int := 16

def KEEP_WINDOW : Int := 5

def RECALL_TOP_K : Nat := 2

def DISPLAY_WINDOW : Nat := 12

-- --- context.py: retrieve_relevant_messages (lines 11-68) ---

/-- Python set(s.lower()): the set of characters of the lower-cased string.
Python lower-cases the whole string; per-character lower-casing is the
same for the character-level sets the code builds. -/
def charSet (s : String) : Finset Char :=
  (s.toList.map Char.toLower).toFinset

/-- The slice messages[:-n] for a Nat n: for n = 0 Python yields the empty
list, otherwise the list without its last n elements. -/
def pyDropLast {α : Type} (l : List α) (n : Nat) : List α :=
  if n = 0 then [] else l.take (l.length - n)

/-- One element of scored_results.  The Python code stores (score, pair_text)
tuples; pos records the transcript index i of the anchor user message,
carried here so that the stability of the sort can be stated. -/
structure ScoredEntry where
  score : ℚ
  pos : Nat
  text : String
deriving DecidableEq, Repr

/-- The pair text built for a qualifying user message at index i
(context.py lines 47-50): "User: ..." plus, when the immediately following
message inside the searchable range is an AI message, "AI: ...". -/
def pairText (searchable : List Msg) (msgsLen : Nat) (msg : Msg) (i : Nat) :
    String :=
  let base := "User: " ++ msg.content
  if i + 1 < msgsLen then
    if i + 1 < searchable.length then
      match searchable.get? (i + 1) with
      | some m2 =>
          if m2.role = Role.ai then base ++ "\nAI: " ++ m2.content else base
      | none => base
    else base
  else base

/-- The body of the scan loop at index i (context.py lines 31-54): a scored
entry is produced when searchable[i] is a user message whose char-set
Jaccard similarity to the query exceeds 0.05. -/
def mkCandidate (qT : Finset Char) (searchable : List Msg) (msgsLen : Nat)
    (i : Nat) : Option ScoredEntry :=
  match searchable.get? i with
  | none => none
  | some msg =>
    if msg.role = Role.human then
      let mT := charSet msg.content
      let inter := qT ∩ mT
      let union := qT ∪ mT
      if union.Nonempty then
        let score : ℚ := (inter.card : ℚ) / (union.card : ℚ)
        if 1 / 20 < score then
          some { score := score, pos := i, text := pairText searchable msgsLen msg i }
        else none
      else none
    else none

/-- scored_results as accumulated by the while loop over the searchable
history (context.py lines 27-54). -/
def scoredResults (messages : List Msg) (query : String)
    (exclude_last_n : Nat) : List ScoredEntry :=
  let searchable := pyDropLast messages exclude_last_n
  let qT := charSet query
  (List.range searchable.length).filterMap (mkCandidate qT searchable messages.length)

/-- Stable insertion used to model Python list.sort(key=score, reverse=True):
x is placed before the first element with a strictly smaller score, hence
after every earlier element of equal score. -/
def insertScored (x : ScoredEntry) : List ScoredEntry → List ScoredEntry
  | [] => [x]
  | y :: ys => if y.score < x.score then x :: y :: ys else y :: insertScored x ys

/-- scored_results.sort(key=lambda x: x[0], reverse=True) (context.py line
57).  Python list.sort is stable; folding the stable insertion over the
list in scan order realises exactly the stable descending sort. -/
def sortScored (l : List ScoredEntry) : List ScoredEntry :=
  l.foldl (fun acc x => insertScored x acc) []

/-- top_items = scored_results[:top_k] after the sort (context.py line 58). -/
def top_items (messages : List Msg) (query : String) (exclude_last_n : Nat)
    (top_k : Nat) : List ScoredEntry :=
  (sortScored (scoredResults messages query exclude_last_n)).take top_k

/-- The Python code renders each score with two decimals; the rendered
digits are immaterial to every claim, so the rational is rendered as
numerator/denominator. -/
def formatScore (q : ℚ) : String :=
  toString q.num ++ "/" ++ toString q.den

/-- The formatted result block (context.py lines 64-66), one numbered
section per selected pair. -/
def formatTop (top : List ScoredEntry) : String :=
  (top.foldl (fun (acc : String × Nat) e =>
    (acc.1 ++ "--- 相关片段 " ++ toString acc.2 ++ " (相似度: "
      ++ formatScore e.score ++ ") ---\n" ++ e.text ++ "\n", acc.2 + 1))
    ("", 1)).1

/-- retrieve_relevant_messages (context.py lines 11-68). -/
def retrieve_relevant_messages (messages : List Msg) (query_text : String)
    (exclude_last_n : Nat) (top_k : Nat) : String :=
  if query_text = "" ∨ messages.length ≤ exclude_last_n then ""
  else if charSet query_text = ∅ then ""
  else
    let top := top_items messages query_text exclude_last_n top_k
    if top.isEmpty then "" else formatTop top

-- --- context.py: build_context (lines 70-117) ---

/-- SystemMessage constructor. -/
def sysMsg (content : String) : Msg :=
  { role := Role.system, content := content }

/-- The last DISPLAY_WINDOW messages: messages[-12:]. -/
def lastWindow (messages : List Msg) : List Msg :=
  messages.drop (messages.length - DISPLAY_WINDOW)

/-- build_context (context.py lines 70-117): [System, Summary?, Recall?,
last 12 messages].  The summary entry is added only when
conversation_summary is truthy (present and non-empty); the recall entry
only when the last transcript message is a user message and the retriever
returns a non-empty block. -/
def build_context (state : AgentState) (system_prompt : String) : List Msg :=
  let base := [sysMsg system_prompt]
  let withSummary :=
    match state.conversation_summary with
    | some s =>
        if s ≠ "" then
          base ++ [sysMsg ("【过往对话摘要】\n" ++ s
            ++ "\n\n(请利用此摘要作为背景知识，但在回复时请聚焦于最新的对话消息。)")]
        else base
    | none => base
  let withRecall :=
    match state.messages.getLast? with
    | some lastMsg =>
        if lastMsg.role = Role.human then
          let relevant := retrieve_relevant_messages state.messages
            lastMsg.content DISPLAY_WINDOW RECALL_TOP_K
          if relevant ≠ "" then
            withSummary ++ [sysMsg ("【相关历史对话召回】\n(系统自动从历史记录中匹配到的相关信息，辅助本次回答)\n"
              ++ relevant)]
          else withSummary
        else withSummary
    | none => withSummary
  withRecall ++ lastWindow state.messages

-- --- context.py: manage_memory (lines 119-192) ---

/-- Python slice l[a:b] for Int indices: negative indices count from the
end and are clamped at 0; upper bounds beyond the length are clamped by
take. -/
def pySlice {α : Type} (l : List α) (a b : Int) : List α :=
  let n : Int := l.length
  let a0 : Int := if a < 0 then max 0 (n + a) else a
  let b0 : Int := if b < 0 then max 0 (n + b) else b
  (l.take b0.toNat).drop a0.toNat

/-- The role tag used when rendering compressed history (context.py line
151): "User" for a HumanMessage, "AI" for everything else. -/
def roleTag (m : Msg) : String :=
  if m.role = Role.human then "User" else "AI"

/-- history_text (context.py lines 149-152). -/
def historyText (msgs : List Msg) : String :=
  msgs.foldl (fun acc m => acc ++ roleTag m ++ ": " ++ m.content ++ "\n") ""

/-- The compression prompt (context.py lines 162-186) with the two f-string
holes filled in. -/
def compressionPrompt (current_summary history_text : String) : String :=
  "\n你是一名负责维护**Context（上下文）**的精炼记录员。\n"
  ++ "你的任务是将【新增对话交互】的认知精华，提取并融合进【当前上下文摘要】中。\n\n"
  ++ "这是一份**给LLM看的短期记忆索引**，不是给人看的长篇报告。必须在保持信息密度的前提下，极度克制字数。\n\n"
  ++ "【当前上下文摘要】:\n"
  ++ (if current_summary = "" then "（尚无记录）" else current_summary)
  ++ "\n\n【新增对话交互】:\n"
  ++ history_text
  ++ "\n\n【写作要求】\n"
  ++ "1. **体现认知递进**：通过逻辑连接词（如“基于此”、“进而”、“反之”），体现用户思维从“疑惑”到“理解”再到“深挖”的路径。\n"
  ++ "2. **极简主义**：\n   - 严禁废话、寒暄和重复。\n   - 用词精准，能用一句话说清的，绝不用两句。\n"
  ++ "   - 只有当新信息真正改变了认知边界时，才增加篇幅；否则请对旧信息进行合并/重写。\n"
  ++ "3. **动态融合**：将新知“揉”进旧文，而不是简单“追加”在后面。如果之前的某些细节不再重要，请果断删除。\n\n"
  ++ "**最终目标**：生成一段**短小精悍**的文本，完美概括我们“目前学到了哪里”以及“思维的上下文脉络”，供系统在下一轮对话中瞬间回溯状态。\n\n"
  ++ "【输出】\n只输出更新后的上下文摘要文本。\n"

/-- manage_memory (context.py lines 119-192).  The state fields it reads
are passed explicitly: the transcript, the stored summary (the code reads
it with state.get(..., ""), so an absent summary arrives as ""), and the
cursor summarized_msg_count (state.get(..., 0)).  The summarisation LLM
call is the function parameter llm, applied to the rendered prompt. -/
def manage_memory (messages : List Msg) (conversation_summary : String)
    (cursor : Int) (llm : String → String) : String × Int :=
  let total_count : Int := messages.length
  let unsummarized_count := total_count - cursor
  if unsummarized_count < COMPRESSION_THRESHOLD then
    (conversation_summary, cursor)
  else
    let end_index := total_count - KEEP_WINDOW
    if end_index ≤ cursor then (conversation_summary, cursor)
    else
      let messages_to_compress := pySlice messages cursor end_index
      let history_text := historyText messages_to_compress
      (llm (compressionPrompt conversation_summary history_text), end_index)

-- --- agent_builder.py: aggregator_node memory update (lines 237-269) ---

/-- The archival tail of aggregator_node (agent_builder.py lines 240-268):
append the final response to the transcript, run manage_memory on the
snapshot, and adopt the compressor result only when the returned summary
differs from the stored one.  Returns (messages, summary, cursor) as
persisted and as handed back to the graph. -/
def aggregator_memory_update (messages : List Msg)
    (conversation_summary : String) (cursor : Int) (final_response : Msg)
    (llm : String → String) : List Msg × String × Int :=
  let current_messages := messages ++ [final_response]
  let mm := manage_memory current_messages conversation_summary cursor llm
  if mm.1 ≠ conversation_summary then (current_messages, mm.1, mm.2)
  else (current_messages, conversation_summary, cursor)

/-- One full turn as it affects the persistent memory fields: the driving
loop appends the user message, then the aggregator appends the reply and
runs the update above.  The reply and the summariser are arbitrary,
covering every behaviour of the external capabilities. -/
def turn_step (messages : List Msg) (conversation_summary : String)
    (cursor : Int) (userMsg final_response : Msg) (llm : String → String) :
    List Msg × String × Int :=
  aggregator_memory_update (messages ++ [userMsg]) conversation_summary
    cursor final_response llm

/-- The memory triple (transcript, summary, cursor) of a reachable session:
a fresh session starts with an empty transcript, no summary and cursor 0
(cli.py lines 64-80; absent keys read as "" and 0 by the code), and each
turn applies turn_step with an arbitrary user message, reply and
summariser output. -/
inductive ReachableMem : List Msg → String → Int → Prop where
  | init : ReachableMem [] "" 0
  | step (messages : List Msg) (conversation_summary : String) (cursor : Int)
      (userMsg reply : Msg) (llm : String → String) :
      ReachableMem messages conversation_summary cursor →
      ReachableMem
        (turn_step messages conversation_summary cursor userMsg reply llm).1
        (turn_step messages conversation_summary cursor userMsg reply llm).2.1
        (turn_step messages conversation_summary cursor userMsg reply llm).2.2

-- --- memory.py: save_session / load_session ---

/-- The dict produced for one message by messages_to_dict: a type tag plus
the message data. -/
structure MsgDict where
  msgType : String
  content : String
  tool_calls : List ToolCall
  tool_call_id : Option String
  name : Option String
deriving DecidableEq, Repr

/-- messages_to_dict on one message. -/
def msgToDict (m : Msg) : MsgDict :=
  { msgType :=
      match m.role with
      | Role.human => "human"
      | Role.ai => "ai"
      | Role.system => "system"
      | Role.tool => "tool"
    content := m.content
    tool_calls := m.tool_calls
    tool_call_id := m.tool_call_id
    name := m.name }

/-- Rebuild a message of the given role from its serialized data. -/
def msgOfDict (r : Role) (d : MsgDict) : Msg :=
  { role := r
    content := d.content
    tool_calls := d.tool_calls
    tool_call_id := d.tool_call_id
    name := d.name }

/-- messages_from_dict on one dict: an unknown type tag raises, modelled as
none. -/
def msgFromDict (d : MsgDict) : Option Msg :=
  match d.msgType with
  | "human" => some (msgOfDict Role.human d)
  | "ai" => some (msgOfDict Role.ai d)
  | "system" => some (msgOfDict Role.system d)
  | "tool" => some (msgOfDict Role.tool d)
  | _ => none

/-- The session JSON object written by save_session (memory.py lines
54-60).  The last_updated wall-clock timestamp is external time and is not
read back into any state, so it is omitted. -/
structure StoredSession where
  session_id : String
  topic : String
  conversation_summary : Option String
  messages : List MsgDict
deriving DecidableEq, Repr

/-- save_session (memory.py lines 33-64): with an empty session id the
function returns early and writes nothing (modelled as none); otherwise it
writes session_id, topic (defaulting to "General"), conversation_summary
and the serialized transcript.  summarized_msg_count, plan, should_exit
and the scratch outputs are not part of the stored object. -/
def save_session (state : AgentState) : Option StoredSession :=
  if state.session_id = "" then none
  else some
    { session_id := state.session_id
      topic := state.current_topic.getD "General"
      conversation_summary := state.conversation_summary
      messages := state.messages.map msgToDict }

/-- The partial state dict returned by load_session (memory.py lines
103-109).  Option fields model dict keys: a field the returned dict does
not contain reads as none. -/
structure LoadedState where
  messages : List Msg
  session_id : Option String
  current_topic : Option String
  conversation_summary : Option String
  summarized_msg_count : Option Int
  plan : Option ExecutionPlan
  tutor_output : Option String
  judge_output : Option String
  inquiry_output : Option String
  summary_output : Option String
deriving DecidableEq, Repr

/-- load_session (memory.py lines 86-109): deserialize the messages and
return a dict holding only messages, session_id, current_topic (from the
stored topic) and conversation_summary.  No summarized_msg_count, plan or
scratch key is ever put into the returned dict. -/
def load_session (stored : StoredSession) : Option LoadedState :=
  match stored.messages.mapM msgFromDict with
  | none => none
  | some msgs => some
    { messages := msgs
      session_id := some stored.session_id
      current_topic := some stored.topic
      conversation_summary := stored.conversation_summary
      summarized_msg_count := none
      plan := none
      tutor_output := none
      judge_output := none
      inquiry_output := none
      summary_output := none }

-- --- tools.py: api_baidu_search (lines 6-62) ---

/-- One item of the "references" array of the search API response, with the
optional keys the code reads via item.get. -/
structure BaiduRef where
  title : Option String
  url : Option String
  content : Option String
  date : Option String
deriving DecidableEq, Repr

/-- The parsed JSON body of a successful search API response; an absent
"references" key is modelled as the empty list, which the code treats the
same way. -/
structure BaiduResponse where
  references : List BaiduRef
deriving DecidableEq, Repr

/-- One formatted result entry (tools.py lines 46-53). -/
def formatRef (r : BaiduRef) : String :=
  "Title: " ++ r.title.getD "No Title" ++ "\nDate: " ++ r.date.getD ""
    ++ "\nSource: " ++ r.url.getD "No URL" ++ "\nContent: "
    ++ r.content.getD "" ++ "\n"

/-- api_baidu_search (tools.py lines 6-62).  The network round trip
(requests.post, raise_for_status, response.json) is the parameter net; any
exception it raises arrives as Except.error and is converted into the
error string the except-branch returns.  The function always returns a
string: a tool failure never propagates to the caller. -/
def api_baidu_search (net : String → Except String BaiduResponse)
    (query : String) : String :=
  match net query with
  | Except.error e => "Error connecting to Baidu Search: " ++ e
  | Except.ok data =>
    if data.references.isEmpty then "No relevant search results found."
    else String.intercalate "\n---\n" (data.references.map formatRef)

-- --- agent_builder.py: _run_tool_loop (lines 84-129) and the workers ---

/-- The externally observable capability calls a worker invocation makes:
a call to the tool-bound model, a synchronous tool execution, or a call to
the plain (non-tool) model. -/
inductive CallEvent where
  | toolModelCall
  | toolExec (name : String) (args : String)
  | plainModelCall
deriving DecidableEq, Repr

/-- True exactly on toolExec events. -/
def isToolExec : CallEvent → Bool
  | CallEvent.toolExec _ _ => true
  | _ => false

/-- ToolMessage construction (agent_builder.py lines 115-119). -/
def toolMessage (tcId result tcName : String) : Msg :=
  { role := Role.tool
    content := result
    tool_call_id := some tcId
    name := some tcName }

/-- The body of the for loop over response.tool_calls (agent_builder.py
lines 104-121): only a call named "baidu_search" is executed; for each
executed call both the tool-requesting AI message and the resulting
ToolMessage are appended to the call-local message list, and a toolExec
event is recorded. -/
def toolLoopStep (response : Msg) (toolResult : String → String)
    (acc : List Msg × List CallEvent) (tc : ToolCall) :
    List Msg × List CallEvent :=
  if tc.name = "baidu_search" then
    (acc.1 ++ [response, toolMessage tc.id (toolResult tc.args) tc.name],
      acc.2 ++ [CallEvent.toolExec tc.name tc.args])
  else acc

/-- _run_tool_loop (agent_builder.py lines 84-129).  The two model variants
are the parameters toolModel (model_with_tools.invoke) and plainModel
(model.invoke); toolResult is search_tool.invoke.  Returns the worker
output text, the final call-local message list, and the trace of
capability calls made. -/
def run_tool_loop (toolModel plainModel : List Msg → Msg)
    (toolResult : String → String) (state : AgentState)
    (prompt_content : String) : String × List Msg × List CallEvent :=
  let current_messages := build_context state prompt_content
  let response := toolModel current_messages
  if response.tool_calls.isEmpty then
    (response.content, current_messages, [CallEvent.toolModelCall])
  else
    let r := response.tool_calls.foldl (toolLoopStep response toolResult)
      (current_messages, [])
    let final_response := plainModel r.1
    (final_response.content, r.1,
      CallEvent.toolModelCall :: r.2 ++ [CallEvent.plainModelCall])

/-- Modelled from the spec: prompts.py is not under src.  The Tutor worker
instruction is a text parameterized by the current topic (spec 4.5-4.6);
its wording is immaterial to every claim. -/
def TUTOR_WORKER_PROMPT (topic : String) : String :=
  "Tutor worker instruction for topic: " ++ topic

/-- Modelled from the spec: prompts.py is not under src.  The Judge worker
instruction is a text parameterized by the current topic (spec 4.5-4.6);
its wording is immaterial to every claim. -/
def JUDGE_WORKER_PROMPT (topic : String) : String :=
  "Judge worker instruction for topic: " ++ topic

/-- tutor_node (agent_builder.py lines 131-140): run the tool loop and
return the update dict with only the tutor_output key; merging that update
into the graph state leaves every other field, in particular the
transcript, unchanged. -/
def tutor_node (toolModel plainModel : List Msg → Msg)
    (toolResult : String → String) (state : AgentState) : AgentState :=
  let topic := state.current_topic.getD "General Knowledge"
  let content := (run_tool_loop toolModel plainModel toolResult state
    (TUTOR_WORKER_PROMPT topic)).1
  { state with tutor_output := some content }

/-- judge_node (agent_builder.py lines 142-151); same shape as tutor_node
with the judge instruction and the judge_output key. -/
def judge_node (toolModel plainModel : List Msg → Msg)
    (toolResult : String → String) (state : AgentState) : AgentState :=
  let topic := state.current_topic.getD "General Knowledge"
  let content := (run_tool_loop toolModel plainModel toolResult state
    (JUDGE_WORKER_PROMPT topic)).1
  { state with judge_output := some content }

-- --- Concrete messages used by witnesses and counterexamples ---

/-- A user message with the given content. -/
def userMsg (s : String) : Msg :=
  { role := Role.human, content := s }

/-- An AI message with the given content. -/
def aiMsg (s : String) : Msg :=
  { role := Role.ai, content := s }

-- --- C1 ---

/-- C1: the spec says that on a structured-decode failure the Planner
returns the safe default Plan and planning never aborts.  The code is
wrong: the except-branch of analyzer_node constructs ExecutionPlan without
the required fields request_summary and is_concluding, so the fallback
construction itself raises a pydantic ValidationError and the turn aborts.
This theorem evaluates the fallback path: both the fallback plan
construction and the whole decode-failure path of the node raise. -/
theorem analyzer_fallback_plan_raises :
    analyzer_fallback_plan
        = Except.error "ValidationError: missing required fields" ∧
      analyzer_node_on_decode_failure
        = Except.error "ValidationError: missing required fields" :=
  ⟨rfl, rfl⟩

-- --- C3 ---

/-- C3 counterexample: at the decision point after Tutoring, a state that
carries no Plan does not route to Aggregating - route_from_tutor
dereferences the missing plan and raises an AttributeError. -/
theorem route_from_tutor_none_raises :
    route_from_tutor none ≠ Except.ok RouteTarget.aggregator ∧
      route_from_tutor none
        = Except.error "AttributeError: NoneType object has no attribute needs_judge" := by
  exact ⟨by simp [route_from_tutor], rfl⟩

/-- C3 (amended): only the decision point from Planning routes a missing
Plan to Aggregating; the decision points from Tutoring and from Judging
raise an AttributeError on a missing Plan instead. -/
theorem router_missing_plan_behavior :
    route_from_analyzer none = RouteTarget.aggregator ∧
      route_from_tutor none
        = Except.error "AttributeError: NoneType object has no attribute needs_judge" ∧
      route_from_judge none
        = Except.error "AttributeError: NoneType object has no attribute needs_inquiry" :=
  ⟨rfl, rfl, rfl⟩

-- --- C6 ---

/-- C6: for every Plan present at the Planning state, route_from_analyzer
implements exactly the fixed precedence the spec states (Summarizing on
request_summary or is_concluding, else Tutoring, else Judging, else
Inquiring, else Aggregating).  route_from_planning_spec is written from
the words of the spec; route_from_analyzer from the code.  Both are pure
functions of the Plan, so identical (Plan, state) inputs always yield the
identical choice. -/
theorem route_from_analyzer_matches_spec :
    ∀ p : ExecutionPlan,
      route_from_analyzer (some p) = route_from_planning_spec p := by
  intro p
  rfl

-- --- C2 ---

/-- messages_from_dict inverts messages_to_dict on a single message. -/
theorem msgFromDict_msgToDict (m : Msg) : msgFromDict (msgToDict m) = some m := by
  cases m with
  | mk r c tcs tid n => cases r <;> rfl

/-- messages_from_dict inverts messages_to_dict on a whole transcript. -/
theorem mapM_msgFromDict_map_msgToDict (l : List Msg) :
    (l.map msgToDict).mapM msgFromDict = some l := by
  induction l with
  | nil => rfl
  | cons m t ih =>
      rw [List.map_cons, List.mapM_cons, msgFromDict_msgToDict, ih]
      rfl

/-- C2 (amended): a save-then-load round trip through the session store
restores the transcript and the conversation summary exactly, but the
summarized cursor is not persisted at all - the loaded state carries no
summarized_msg_count - and the Plan and scratch outputs are likewise not
restored. -/
theorem save_load_partial_roundtrip :
    ∀ s : AgentState, s.session_id ≠ "" →
      ∃ stored, save_session s = some stored ∧
        load_session stored = some
          { messages := s.messages
            session_id := some s.session_id
            current_topic := some (s.current_topic.getD "General")
            conversation_summary := s.conversation_summary
            summarized_msg_count := none
            plan := none
            tutor_output := none
            judge_output := none
            inquiry_output := none
            summary_output := none } := by
  intro s hs
  unfold save_session
  rw [if_neg hs]
  refine ⟨_, rfl, ?_⟩
  unfold load_session
  rw [mapM_msgFromDict_map_msgToDict]

/-- A concrete session state with a non-trivial cursor, used to exercise
the save/load round trip. -/
def c2_state : AgentState :=
  { messages := [userMsg "q1", aiMsg "a1"]
    current_topic := some "Math"
    session_id := "sess1"
    conversation_summary := some "sum"
    summarized_msg_count := 3
    plan := some ⟨true, false, false, false, false, "t"⟩
    should_exit := false
    tutor_output := some "tout"
    judge_output := none
    inquiry_output := none
    summary_output := none
    last_intent := none }

/-- C2 witness: the round-trip theorem applied to the concrete state. -/
theorem save_load_partial_roundtrip_witness :
    c2_state.session_id ≠ "" ∧
      (∃ stored, save_session c2_state = some stored ∧
        load_session stored = some
          { messages := c2_state.messages
            session_id := some c2_state.session_id
            current_topic := some (c2_state.current_topic.getD "General")
            conversation_summary := c2_state.conversation_summary
            summarized_msg_count := none
            plan := none
            tutor_output := none
            judge_output := none
            inquiry_output := none
            summary_output := none }) :=
  ⟨by decide, save_load_partial_roundtrip c2_state (by decide)⟩

/-- C2 counterexample: the claim as stated fails - saving c2_state, whose
cursor is 3, and loading it back yields a state whose
summarized_msg_count key is absent (none), not equal to the value at save
time. -/
theorem save_load_cursor_not_restored :
    Option.map LoadedState.summarized_msg_count
        ((save_session c2_state).bind load_session) = some none ∧
      c2_state.summarized_msg_count = 3 := by
  exact ⟨rfl, rfl⟩

-- --- C5 ---

/-- Below the threshold the compressor is a no-op. -/
theorem manage_memory_of_lt (messages : List Msg) (summary : String)
    (cursor : Int) (llm : String → String)
    (h : (messages.length : Int) - cursor < COMPRESSION_THRESHOLD) :
    manage_memory messages summary cursor llm = (summary, cursor) := by
  simp only [manage_memory]
  rw [if_pos h]

/-- An empty or inverted compression range makes the compressor a no-op. -/
theorem manage_memory_of_range_empty (messages : List Msg) (summary : String)
    (cursor : Int) (llm : String → String)
    (h : (messages.length : Int) - KEEP_WINDOW ≤ cursor) :
    manage_memory messages summary cursor llm = (summary, cursor) := by
  by_cases h1 : (messages.length : Int) - cursor < COMPRESSION_THRESHOLD
  · exact manage_memory_of_lt messages summary cursor llm h1
  · simp only [manage_memory]
    rw [if_neg h1, if_pos h]

/-- At or above the threshold the compressor fires and returns the fused
summary together with the advanced cursor. -/
theorem manage_memory_fire (messages : List Msg) (summary : String)
    (cursor : Int) (llm : String → String)
    (h : COMPRESSION_THRESHOLD ≤ (messages.length : Int) - cursor) :
    manage_memory messages summary cursor llm =
      (llm (compressionPrompt summary (historyText
          (pySlice messages cursor ((messages.length : Int) - KEEP_WINDOW)))),
        (messages.length : Int) - KEEP_WINDOW) := by
  have h1 : ¬ ((messages.length : Int) - cursor < COMPRESSION_THRESHOLD) := by
    simp only [COMPRESSION_THRESHOLD] at h ⊢
    omega
  have h2 : ¬ ((messages.length : Int) - KEEP_WINDOW ≤ cursor) := by
    simp only [COMPRESSION_THRESHOLD, KEEP_WINDOW] at h ⊢
    omega
  simp only [manage_memory]
  rw [if_neg h1, if_neg h2]

/-- C5: the Memory Compressor compresses iff
len(transcript) - summarized_cursor is at least 16; when it fires the
returned cursor is len(transcript) - 5, leaving exactly
min(5, len(transcript)) trailing messages uncompressed, and the summary is
the fusion capability applied to the compression range; when it does not
fire, or the compression range is empty or inverted, it returns the
summary and the cursor unchanged. -/
theorem manage_memory_trigger_spec :
    ∀ (messages : List Msg) (summary : String) (cursor : Int)
      (llm : String → String), 0 ≤ cursor →
      ((messages.length : Int) - cursor < COMPRESSION_THRESHOLD →
          manage_memory messages summary cursor llm = (summary, cursor)) ∧
      ((messages.length : Int) - KEEP_WINDOW ≤ cursor →
          manage_memory messages summary cursor llm = (summary, cursor)) ∧
      (COMPRESSION_THRESHOLD ≤ (messages.length : Int) - cursor →
          (manage_memory messages summary cursor llm).2
              = (messages.length : Int) - KEEP_WINDOW ∧
            cursor < (manage_memory messages summary cursor llm).2 ∧
            (messages.length : Int) - (manage_memory messages summary cursor llm).2
              = min KEEP_WINDOW (messages.length : Int) ∧
            (manage_memory messages summary cursor llm).1
              = llm (compressionPrompt summary (historyText
                  (pySlice messages cursor ((messages.length : Int) - KEEP_WINDOW))))) := by
  intro messages summary cursor llm h0
  refine ⟨manage_memory_of_lt messages summary cursor llm,
    manage_memory_of_range_empty messages summary cursor llm, ?_⟩
  intro h
  rw [manage_memory_fire messages summary cursor llm h]
  refine ⟨rfl, ?_, ?_, rfl⟩
  · show cursor < (messages.length : Int) - KEEP_WINDOW
    simp only [COMPRESSION_THRESHOLD, KEEP_WINDOW] at h ⊢
    omega
  · show (messages.length : Int) - ((messages.length : Int) - KEEP_WINDOW)
        = min KEEP_WINDOW (messages.length : Int)
    simp only [COMPRESSION_THRESHOLD, KEEP_WINDOW] at h ⊢
    omega

/-- A 16-message transcript, enough to trigger compression from cursor 0. -/
def c5_msgs : List Msg := List.replicate 16 (userMsg "hi")

/-- A concrete summarisation capability. -/
def c5_llm : String → String := fun _ => "NEW"

/-- C5 witness: on a 16-message transcript with cursor 0 the compressor
fires and advances the cursor to 11 = 16 - 5. -/
theorem manage_memory_trigger_spec_witness :
    (0 : Int) ≤ 0 ∧ (manage_memory c5_msgs "" 0 c5_llm).2 = 11 := by
  refine ⟨le_refl 0, ?_⟩
  have h := (manage_memory_trigger_spec c5_msgs "" 0 c5_llm (le_refl 0)).2.2
    (by norm_num [c5_msgs, COMPRESSION_THRESHOLD])
  rw [h.1]
  norm_num [c5_msgs, KEEP_WINDOW]

-- --- C7 ---

/-- The compressor never moves the cursor backwards and never moves it past
the transcript length. -/
theorem manage_memory_cursor_mono (messages : List Msg) (summary : String)
    (cursor : Int) (llm : String → String) (h0 : 0 ≤ cursor)
    (h1 : cursor ≤ (messages.length : Int)) :
    cursor ≤ (manage_memory messages summary cursor llm).2 ∧
      (manage_memory messages summary cursor llm).2 ≤ (messages.length : Int) ∧
      0 ≤ (manage_memory messages summary cursor llm).2 := by
  by_cases h : COMPRESSION_THRESHOLD ≤ (messages.length : Int) - cursor
  · rw [manage_memory_fire messages summary cursor llm h]
    simp only [COMPRESSION_THRESHOLD, KEEP_WINDOW] at h ⊢
    refine ⟨by omega, by omega, by omega⟩
  · rw [manage_memory_of_lt messages summary cursor llm (by omega)]
    exact ⟨le_refl cursor, h1, h0⟩

/-- The aggregator memory update preserves the cursor bounds and never
decreases the cursor. -/
theorem aggregator_memory_update_bounds (messages : List Msg)
    (summary : String) (cursor : Int) (reply : Msg) (llm : String → String)
    (h0 : 0 ≤ cursor) (h1 : cursor ≤ (messages.length : Int)) :
    cursor ≤ (aggregator_memory_update messages summary cursor reply llm).2.2 ∧
      (aggregator_memory_update messages summary cursor reply llm).2.2
        ≤ ((aggregator_memory_update messages summary cursor reply llm).1.length : Int) ∧
      0 ≤ (aggregator_memory_update messages summary cursor reply llm).2.2 := by
  have hlen : ((messages ++ [reply]).length : Int) = (messages.length : Int) + 1 := by
    simp
  have hm := manage_memory_cursor_mono (messages ++ [reply]) summary cursor llm h0
    (by omega)
  simp only [aggregator_memory_update]
  split_ifs with h
  · simp only
    rw [hlen] at hm
    refine ⟨hm.1, by omega, hm.2.2⟩
  · simp only
    refine ⟨le_refl cursor, by omega, h0⟩

/-- C7: in every reachable session memory state the cursor satisfies
0 ≤ summarized_cursor ≤ len(transcript), and one further turn from any
state satisfying these bounds never decreases the cursor - so across
successive turns of a session lifetime the cursor is monotonically
non-decreasing. -/
theorem reachable_cursor_invariant :
    (∀ (messages : List Msg) (summary : String) (cursor : Int),
        ReachableMem messages summary cursor →
          0 ≤ cursor ∧ cursor ≤ (messages.length : Int)) ∧
      (∀ (messages : List Msg) (summary : String) (cursor : Int)
          (u reply : Msg) (llm : String → String),
          0 ≤ cursor → cursor ≤ (messages.length : Int) →
            cursor ≤ (turn_step messages summary cursor u reply llm).2.2) := by
  constructor
  · intro m s c h
    induction h with
    | init => exact ⟨le_refl 0, by norm_num⟩
    | step messages summary cursor u reply llm _hr ih =>
        have hlen : ((messages ++ [u]).length : Int) = (messages.length : Int) + 1 := by
          simp
        have hb := aggregator_memory_update_bounds (messages ++ [u]) summary cursor
          reply llm ih.1 (by omega)
        refine ⟨?_, ?_⟩
        · exact le_trans ih.1 hb.1
        · exact hb.2.1
  · intro messages summary cursor u reply llm h0 h1
    have hlen : ((messages ++ [u]).length : Int) = (messages.length : Int) + 1 := by
      simp
    exact (aggregator_memory_update_bounds (messages ++ [u]) summary cursor
      reply llm h0 (by omega)).1

/-- C7 witness: the invariant holds at the initial reachable state. -/
theorem reachable_cursor_invariant_witness :
    ReachableMem [] "" 0 ∧ (0 : Int) ≤ 0 ∧ (0 : Int) ≤ (([] : List Msg).length : Int) :=
  ⟨ReachableMem.init, (reachable_cursor_invariant.1 [] "" 0 ReachableMem.init).1,
    (reachable_cursor_invariant.1 [] "" 0 ReachableMem.init).2⟩

-- --- C10 ---

/-- C10: the aggregator adopts the compressor result only when the returned
summary text differs from the stored conversation_summary; the persisted
and returned cursor changes only in that case, and when the compressor
returns a summary equal to the stored one the cursor is left unchanged
even when compression fired and computed a strictly larger cursor. -/
theorem aggregator_cursor_only_on_summary_change :
    ∀ (messages : List Msg) (summary : String) (cursor : Int) (reply : Msg)
      (llm : String → String),
      (aggregator_memory_update messages summary cursor reply llm).2.1
          = (if (manage_memory (messages ++ [reply]) summary cursor llm).1 = summary
              then summary
              else (manage_memory (messages ++ [reply]) summary cursor llm).1) ∧
        (aggregator_memory_update messages summary cursor reply llm).2.2
          = (if (manage_memory (messages ++ [reply]) summary cursor llm).1 = summary
              then cursor
              else (manage_memory (messages ++ [reply]) summary cursor llm).2) ∧
        (0 ≤ cursor →
          COMPRESSION_THRESHOLD ≤ ((messages ++ [reply]).length : Int) - cursor →
          (manage_memory (messages ++ [reply]) summary cursor llm).1 = summary →
            cursor < (manage_memory (messages ++ [reply]) summary cursor llm).2 ∧
              (aggregator_memory_update messages summary cursor reply llm).2.2 = cursor) := by
  intro messages summary cursor reply llm
  by_cases h : (manage_memory (messages ++ [reply]) summary cursor llm).1 = summary
  · simp only [aggregator_memory_update, h, if_pos, if_neg, not_not]
    refine ⟨by simp [h], by simp [h], ?_⟩
    intro _h0 hth _he
    have hf := manage_memory_fire (messages ++ [reply]) summary cursor llm hth
    simp only [COMPRESSION_THRESHOLD, KEEP_WINDOW] at hth ⊢
    constructor
    · rw [hf]
      simp only [KEEP_WINDOW]
      omega
    · simp [h]
  · simp only [aggregator_memory_update]
    rw [if_pos h, if_neg h, if_neg h]
    refine ⟨rfl, rfl, ?_⟩
    intro _ _ he
    exact absurd he h

/-- A 15-message transcript: with the appended reply it reaches the
16-message compression threshold. -/
def c10_msgs : List Msg := List.replicate 15 (userMsg "hi")

/-- A summarisation capability that happens to return exactly the stored
summary text. -/
def c10_llm : String → String := fun _ => "S"

/-- C10 witness: compression fires (the compressor computes cursor 11 > 0)
but its returned summary equals the stored one, so the aggregator leaves
the cursor at 0. -/
theorem aggregator_cursor_only_on_summary_change_witness :
    (0 : Int) < (manage_memory (c10_msgs ++ [aiMsg "a"]) "S" 0 c10_llm).2 ∧
      (aggregator_memory_update c10_msgs "S" 0 (aiMsg "a") c10_llm).2.2 = 0 :=
  (aggregator_cursor_only_on_summary_change c10_msgs "S" 0 (aiMsg "a") c10_llm).2.2
    (le_refl 0)
    (by norm_num [c10_msgs, COMPRESSION_THRESHOLD])
    rfl

-- --- C4 / C9: tool loop lemmas ---

/-- The for loop over response.tool_calls records exactly one toolExec
event per requested call named baidu_search, in request order. -/
theorem toolLoop_foldl_events (response : Msg) (toolResult : String → String) :
    ∀ (l : List ToolCall) (msgs : List Msg) (evs : List CallEvent),
      (l.foldl (toolLoopStep response toolResult) (msgs, evs)).2
        = evs ++ (l.filter (fun tc => decide (tc.name = "baidu_search"))).map
            (fun tc => CallEvent.toolExec tc.name tc.args) := by
  intro l
  induction l with
  | nil =>
      intro msgs evs
      simp
  | cons tc t ih =>
      intro msgs evs
      by_cases h : tc.name = "baidu_search"
      · simp only [List.foldl_cons, toolLoopStep, if_pos h, List.filter_cons]
        rw [ih]
        simp [h]
      · simp only [List.foldl_cons, toolLoopStep, if_neg h, List.filter_cons]
        rw [ih]
        simp [h]

/-- toolExec events are never plain-model calls. -/
theorem count_plain_in_toolExec_map (l : List ToolCall) :
    (l.map (fun tc => CallEvent.toolExec tc.name tc.args)).count
        CallEvent.plainModelCall = 0 := by
  rw [List.count_eq_zero]
  intro h
  obtain ⟨tc, _, he⟩ := List.mem_map.mp h
  simp at he

/-- toolExec events are never tool-model calls. -/
theorem count_toolModel_in_toolExec_map (l : List ToolCall) :
    (l.map (fun tc => CallEvent.toolExec tc.name tc.args)).count
        CallEvent.toolModelCall = 0 := by
  rw [List.count_eq_zero]
  intro h
  obtain ⟨tc, _, he⟩ := List.mem_map.mp h
  simp at he

/-- Filtering a list of toolExec events for toolExec events keeps it. -/
theorem filter_isToolExec_map (l : List ToolCall) :
    (l.map (fun tc => CallEvent.toolExec tc.name tc.args)).filter isToolExec
      = l.map (fun tc => CallEvent.toolExec tc.name tc.args) := by
  rw [List.filter_eq_self]
  intro e he
  obtain ⟨tc, _, rfl⟩ := List.mem_map.mp he
  rfl

-- --- C4 ---

/-- C4 (amended): when the tool-capable first call requests tool calls,
exactly the requested calls named baidu_search are executed synchronously,
in request order - a requested call with any other name is skipped without
execution - and a failing tool invocation makes api_baidu_search return an
error string as the tool result instead of propagating the failure. -/
theorem tool_execution_spec :
    (∀ (toolModel plainModel : List Msg → Msg) (toolResult : String → String)
        (state : AgentState) (prompt_content : String),
        (run_tool_loop toolModel plainModel toolResult state prompt_content).2.2.filter
            isToolExec
          = ((toolModel (build_context state prompt_content)).tool_calls.filter
              (fun tc => decide (tc.name = "baidu_search"))).map
              (fun tc => CallEvent.toolExec tc.name tc.args)) ∧
      (∀ (net : String → Except String BaiduResponse) (query e : String),
          net query = Except.error e →
            api_baidu_search net query
              = "Error connecting to Baidu Search: " ++ e) := by
  constructor
  · intro toolModel plainModel toolResult state prompt_content
    simp only [run_tool_loop]
    by_cases h : (toolModel (build_context state prompt_content)).tool_calls.isEmpty
    · rw [if_pos h]
      rw [List.isEmpty_iff] at h
      rw [h]
      rfl
    · rw [if_neg h]
      simp only
      rw [toolLoop_foldl_events]
      simp [List.filter_cons, List.filter_append, filter_isToolExec_map, isToolExec]
  · intro net query e h
    simp [api_baidu_search, h]

/-- A first response requesting a single tool call that is not named
baidu_search. -/
def c4_toolModel : List Msg → Msg :=
  fun _ => { role := Role.ai, content := "c",
             tool_calls := [⟨"python_exec", "print(1)", "id1"⟩] }

/-- A plain follow-up model. -/
def c4_plainModel : List Msg → Msg := fun _ => aiMsg "final"

/-- A tool that would answer if it were called. -/
def c4_toolResult : String → String := fun _ => "res"

/-- An empty fresh state. -/
def c4_state : AgentState :=
  ⟨[], none, "s4", none, 0, none, false, none, none, none, none, none⟩

/-- C4 counterexample: the first response requests one tool call (named
python_exec), yet the worker executes no tool at all - the capability
trace holds no toolExec event - so it is not the case that every requested
tool call is executed. -/
theorem tool_call_skipped_counterexample :
    (c4_toolModel (build_context c4_state "p")).tool_calls ≠ [] ∧
      (run_tool_loop c4_toolModel c4_plainModel c4_toolResult c4_state "p").2.2
        = [CallEvent.toolModelCall, CallEvent.plainModelCall] :=
  ⟨by decide, rfl⟩

/-- A network layer that fails. -/
def c4_net : String → Except String BaiduResponse :=
  fun _ => Except.error "timeout"

/-- C4 witness: a failing search invocation returns the error string as
the tool result. -/
theorem tool_execution_spec_witness :
    c4_net "q" = Except.error "timeout" ∧
      api_baidu_search c4_net "q" = "Error connecting to Baidu Search: timeout" :=
  ⟨rfl, tool_execution_spec.2 c4_net "q" "timeout" rfl⟩

-- --- C9 ---

/-- C9: per Tutor or Judge invocation at most one tool-augmentation round
occurs.  If the first (tool-capable) response requests tool calls, the
requests and results live only in the call-local message list: exactly one
follow-up call to the non-tool model is issued and its text is the worker
output; if no tool calls are requested, the first response text is the
output and the non-tool model is never called.  In both cases the
tool-capable model is called exactly once - there is no iterative loop -
and neither tutor_node nor judge_node changes the persisted transcript. -/
theorem tool_loop_single_round :
    ∀ (toolModel plainModel : List Msg → Msg) (toolResult : String → String)
      (state : AgentState) (prompt_content : String),
      ((toolModel (build_context state prompt_content)).tool_calls = [] →
          (run_tool_loop toolModel plainModel toolResult state prompt_content).2.2
              = [CallEvent.toolModelCall] ∧
            (run_tool_loop toolModel plainModel toolResult state prompt_content).1
              = (toolModel (build_context state prompt_content)).content) ∧
      ((toolModel (build_context state prompt_content)).tool_calls ≠ [] →
          (run_tool_loop toolModel plainModel toolResult state prompt_content).2.2.count
              CallEvent.plainModelCall = 1 ∧
            (run_tool_loop toolModel plainModel toolResult state prompt_content).2.2.count
              CallEvent.toolModelCall = 1 ∧
            (run_tool_loop toolModel plainModel toolResult state prompt_content).1
              = (plainModel
                  (run_tool_loop toolModel plainModel toolResult state prompt_content).2.1).content) ∧
      (tutor_node toolModel plainModel toolResult state).messages = state.messages ∧
      (judge_node toolModel plainModel toolResult state).messages = state.messages := by
  intro toolModel plainModel toolResult state prompt_content
  refine ⟨?_, ?_, rfl, rfl⟩
  · intro h
    simp only [run_tool_loop]
    rw [if_pos (List.isEmpty_iff.mpr h)]
    exact ⟨rfl, rfl⟩
  · intro h
    have hne : ¬ (toolModel (build_context state prompt_content)).tool_calls.isEmpty := by
      rw [List.isEmpty_iff]
      exact h
    simp only [run_tool_loop]
    rw [if_neg hne]
    simp only
    refine ⟨?_, ?_, trivial⟩
    · rw [toolLoop_foldl_events]
      simp [List.count_cons, List.count_append, count_plain_in_toolExec_map]
    · rw [toolLoop_foldl_events]
      simp [List.count_cons, List.count_append, count_toolModel_in_toolExec_map]

/-- An empty fresh state for the single-round witness. -/
def c9_state : AgentState :=
  ⟨[], none, "s9", none, 0, none, false, none, none, none, none, none⟩

/-- A first response requesting one baidu_search call. -/
def c9_toolModel : List Msg → Msg :=
  fun _ => { role := Role.ai, content := "c",
             tool_calls := [⟨"baidu_search", "q", "id1"⟩] }

/-- The non-tool follow-up model. -/
def c9_plainModel : List Msg → Msg := fun _ => aiMsg "final"

/-- The tool execution. -/
def c9_toolResult : String → String := fun _ => "result"

/-- C9 witness: with one requested baidu_search call, exactly one follow-up
plain-model call is made. -/
theorem tool_loop_single_round_witness :
    (c9_toolModel (build_context c9_state "p")).tool_calls ≠ [] ∧
      (run_tool_loop c9_toolModel c9_plainModel c9_toolResult c9_state "p").2.2.count
        CallEvent.plainModelCall = 1 :=
  ⟨by decide,
    ((tool_loop_single_round c9_toolModel c9_plainModel c9_toolResult c9_state "p").2.1
      (by decide)).1⟩

-- --- C8 ---

/-- The ordering the spec requires of the selected pairs: descending
similarity, ties resolved by original transcript position (the earlier
anchor wins). -/
def DescStable (a b : ScoredEntry) : Prop :=
  b.score ≤ a.score ∧ (a.score = b.score → a.pos < b.pos)

/-- A produced candidate carries its anchor position and a Jaccard score in
[0, 1]. -/
theorem mkCandidate_some (qT : Finset Char) (searchable : List Msg)
    (L i : Nat) (e : ScoredEntry)
    (h : mkCandidate qT searchable L i = some e) :
    e.pos = i ∧ 0 ≤ e.score ∧ e.score ≤ 1 := by
  simp only [mkCandidate] at h
  cases hget : searchable.get? i with
  | none =>
      rw [hget] at h
      exact absurd h (by simp)
  | some msg =>
      rw [hget] at h
      simp only at h
      by_cases hrole : msg.role = Role.human
      · rw [if_pos hrole] at h
        by_cases hne : (qT ∪ charSet msg.content).Nonempty
        · rw [if_pos hne] at h
          by_cases hs : (1 : ℚ) / 20 <
              ((qT ∩ charSet msg.content).card : ℚ) / ((qT ∪ charSet msg.content).card : ℚ)
          · rw [if_pos hs] at h
            injection h with h2
            subst h2
            refine ⟨rfl, ?_, ?_⟩
            · positivity
            · have hcard : ((qT ∩ charSet msg.content).card : ℚ)
                  ≤ ((qT ∪ charSet msg.content).card : ℚ) := by
                exact_mod_cast Finset.card_le_card Finset.inter_subset_union
              have hpos : (0 : ℚ) < ((qT ∪ charSet msg.content).card : ℚ) := by
                exact_mod_cast Finset.card_pos.mpr hne
              rw [div_le_one hpos]
              exact hcard
          · rw [if_neg hs] at h
            exact absurd h (by simp)
        · rw [if_neg hne] at h
          exact absurd h (by simp)
      · rw [if_neg hrole] at h
        exact absurd h (by simp)

/-- The scan over the searchable history produces candidates whose anchor
positions strictly increase. -/
theorem scoredResults_pos_pairwise (messages : List Msg) (query : String)
    (exclude_last_n : Nat) :
    (scoredResults messages query exclude_last_n).Pairwise
      (fun a b => a.pos < b.pos) := by
  unfold scoredResults
  rw [List.pairwise_filterMap]
  apply List.Pairwise.imp ?_ (List.pairwise_lt_range _)
  intro i j hij
  intro a ha b hb
  rw [(mkCandidate_some _ _ _ _ _ ha).1, (mkCandidate_some _ _ _ _ _ hb).1]
  exact hij

/-- Membership in the stable insertion. -/
theorem mem_insertScored (x z : ScoredEntry) (l : List ScoredEntry) :
    z ∈ insertScored x l ↔ z = x ∨ z ∈ l := by
  induction l with
  | nil => simp [insertScored]
  | cons y ys ih =>
      simp only [insertScored]
      by_cases h : y.score < x.score
      · rw [if_pos h]
        simp [List.mem_cons]
      · rw [if_neg h]
        simp only [List.mem_cons, ih]
        tauto

/-- Stable insertion preserves the descending stable order, provided the
inserted element comes later in the scan than everything already sorted. -/
theorem insertScored_pairwise (x : ScoredEntry) (l : List ScoredEntry)
    (hl : l.Pairwise DescStable) (hpos : ∀ y ∈ l, y.pos < x.pos) :
    (insertScored x l).Pairwise DescStable := by
  induction l with
  | nil => simp [insertScored]
  | cons y ys ih =>
      rw [List.pairwise_cons] at hl
      obtain ⟨hy, hys⟩ := hl
      simp only [insertScored]
      by_cases h : y.score < x.score
      · rw [if_pos h]
        refine List.Pairwise.cons ?_ (List.Pairwise.cons hy hys)
        intro z hz
        rcases List.mem_cons.mp hz with rfl | hz2
        · refine ⟨le_of_lt h, ?_⟩
          intro he
          exact absurd h (by rw [he]; exact lt_irrefl _)
        · have hd := hy z hz2
          refine ⟨le_trans hd.1 (le_of_lt h), ?_⟩
          intro he
          have : z.score ≤ y.score := hd.1
          rw [← he] at this
          exact absurd (lt_of_le_of_lt this h) (by rw [he]; exact lt_irrefl _)
      · rw [if_neg h]
        push_neg at h
        refine List.Pairwise.cons ?_
          (ih hys (fun z hz => hpos z (List.mem_cons_of_mem y hz)))
        intro z hz
        rcases (mem_insertScored x z ys).mp hz with rfl | hz2
        · exact ⟨h, fun _ => hpos y (List.mem_cons_self y ys)⟩
        · exact hy z hz2

/-- Folding the stable insertion over scan-ordered candidates yields a list
in descending stable order. -/
theorem sortScored_foldl_pairwise (l : List ScoredEntry) :
    ∀ acc : List ScoredEntry, acc.Pairwise DescStable →
      (∀ y ∈ acc, ∀ x ∈ l, y.pos < x.pos) →
      l.Pairwise (fun a b => a.pos < b.pos) →
      (l.foldl (fun a x => insertScored x a) acc).Pairwise DescStable := by
  induction l with
  | nil =>
      intro acc ha _ _
      simpa using ha
  | cons x xs ih =>
      intro acc ha hcross hl
      rw [List.pairwise_cons] at hl
      obtain ⟨hx, hxs⟩ := hl
      simp only [List.foldl_cons]
      apply ih
      · exact insertScored_pairwise x acc ha
          (fun y hy => hcross y hy x (List.mem_cons_self x xs))
      · intro y hy z hz
        rcases (mem_insertScored x y acc).mp hy with rfl | hy2
        · exact hx z hz
        · exact hcross y hy2 z (List.mem_cons_of_mem x hz)
      · exact hxs

/-- Every element of the sorted list comes from the input. -/
theorem mem_sortScored_foldl (l : List ScoredEntry) :
    ∀ (acc : List ScoredEntry) (z : ScoredEntry),
      z ∈ l.foldl (fun a x => insertScored x a) acc → z ∈ acc ∨ z ∈ l := by
  induction l with
  | nil =>
      intro acc z h
      exact Or.inl (by simpa using h)
  | cons x xs ih =>
      intro acc z h
      simp only [List.foldl_cons] at h
      rcases ih (insertScored x acc) z h with h2 | h2
      · rcases (mem_insertScored x z acc).mp h2 with h3 | h3
        · exact Or.inr (by rw [h3]; exact List.mem_cons_self _ _)
        · exact Or.inl h3
      · exact Or.inr (List.mem_cons_of_mem x h2)

/-- C8: over every transcript and query, every similarity score the
Relevance Retriever produces for a selected pair lies in [0, 1]; the
selected pairs are in descending-score order with ties resolved by the
original transcript position (the earlier anchor wins); and at most
top_k = RECALL_TOP_K = 2 pairs are kept. -/
theorem retrieval_ranking_spec :
    ∀ (messages : List Msg) (query : String) (exclude_last_n : Nat),
      (top_items messages query exclude_last_n RECALL_TOP_K).Forall
          (fun e => 0 ≤ e.score ∧ e.score ≤ 1) ∧
        (top_items messages query exclude_last_n RECALL_TOP_K).length ≤ 2 ∧
        (top_items messages query exclude_last_n RECALL_TOP_K).Pairwise DescStable := by
  intro messages query exclude_last_n
  refine ⟨?_, ?_, ?_⟩
  · rw [List.forall_iff_forall_mem]
    intro e he
    have h1 : e ∈ sortScored (scoredResults messages query exclude_last_n) :=
      List.take_subset _ _ he
    have h2 : e ∈ scoredResults messages query exclude_last_n := by
      rcases mem_sortScored_foldl _ [] e h1 with h | h
      · simp at h
      · exact h
    unfold scoredResults at h2
    obtain ⟨i, _, hc⟩ := List.mem_filterMap.mp h2
    exact (mkCandidate_some _ _ _ _ _ hc).2
  · exact List.length_take_le _ _
  · exact List.Pairwise.sublist (List.take_sublist _ _)
      (sortScored_foldl_pairwise _ [] (by simp) (by simp)
        (scoredResults_pos_pairwise messages query exclude_last_n))

end ChatTutor
